import Mathlib

/-!
Verification of the QuantumBet probabilistic decision engine
(Analise-aposta repository) against its specification.

The engine's numeric pipeline is embedded shallowly over `ℚ`:
Feature Builder → Ensemble Estimator → Market Comparator /
Value Calculator → Multi-Market Pick Selector.  Definitions follow
the source (README_COMPLETO.md, ETAPA 2–6); components that the
repository only documents (input validation, de-vig, the pick
selector) are modelled from the spec and marked as such.
-/

namespace QuantumBet

/-! ## Value Calculator (README_COMPLETO.md, ETAPA 5.2) -/

/-- EV formula from the source:
`ev = (Probabilidade_Real × (Odds - 1)) - (1 - Probabilidade_Real)`. -/
def calculate_ev (p o : ℚ) : ℚ :=
  p * (o - 1) - (1 - p)

/-- The EV expressed in percent, as used by `approve_pick`
(`ev=13.7` for the fraction `0.137` in the source's worked example). -/
def ev_percent (p o : ℚ) : ℚ :=
  calculate_ev p o * 100

/-- Error taxonomy of the Value Calculator (spec §7). -/
inductive CalcError
  | invalidOdds
  | domainError
  deriving DecidableEq

/-- Modelled from the spec: the repository documents but does not ship
the Value Calculator's input validation ("Rejects with `InvalidOddsError`
when `o ≤ 1`, and with a domain error when `p` is not strictly in (0,1)"). -/
def calculate_ev_checked (p o : ℚ) : Except CalcError ℚ :=
  if o ≤ 1 then .error .invalidOdds
  else if p ≤ 0 ∨ 1 ≤ p then .error .domainError
  else .ok (calculate_ev p o)

/-! ## Stake calculation (README_COMPLETO.md, ETAPA 6.2) -/

/-- `max_bankroll_pct=2.0`, the default argument of `calculate_stake`. -/
def max_bankroll_pct : ℚ := 2

/-- The kelly fraction the source computes inside `calculate_stake`:
`kelly_fraction = (ev / 100) * confidence`, capped at
`max_bankroll_pct / 100`, then halved (fractional Kelly). -/
def kelly_fraction_of (ev confidence : ℚ) : ℚ :=
  min ((ev / 100) * confidence) (max_bankroll_pct / 100) * (1 / 2)

/-- Modelled from the spec, for comparison with `kelly_fraction_of`:
`kelly_fraction = clamp( p - (1-p)/(o-1), 0, max_bankroll_fraction ) *
kelly_multiplier` (spec §4.4), with the configured bankroll cap `0.02`
and multiplier `0.5`. -/
def kelly_fraction_spec (p o : ℚ) : ℚ :=
  min (max (p - (1 - p) / (o - 1)) 0) (max_bankroll_pct / 100) * (1 / 2)

/-- `calculate_stake` from the source:
`stake_units = kelly_fraction * 50`, `return max(0.5, min(stake_units, 10.0))`. -/
def calculate_stake (ev confidence : ℚ) : ℚ :=
  max (1 / 2) (min (kelly_fraction_of ev confidence * 50) 10)

/-! ## Approval criteria (README_COMPLETO.md, ETAPA 6.1) -/

/-- `"min_ev": 5.0` — EV mínimo +5%. -/
def criteria_min_ev : ℚ := 5

/-- `"min_confidence": 0.70`. -/
def criteria_min_confidence : ℚ := 7 / 10

/-- `"max_odds": 5.0`. -/
def criteria_max_odds : ℚ := 5

/-- `"min_odds": 1.3`. -/
def criteria_min_odds : ℚ := 13 / 10

/-- `approve_pick` from the source: EV, confidence and odds-band
thresholds must all hold. -/
def approve_pick (ev confidence odds : ℚ) : Bool :=
  decide (criteria_min_ev ≤ ev) &&
  decide (criteria_min_confidence ≤ confidence) &&
  (decide (criteria_min_odds ≤ odds) && decide (odds ≤ criteria_max_odds))

/-! ## Claim theorems: Value Calculator -/

/-- C2: for every probability `p` and decimal odds `o`, the Value
Calculator's EV% equals `(p * (o - 1) - (1 - p)) * 100`; in particular
`p=0.65, o=1.85` yields `20.25` and `p=0.425, o=2.10` yields `-10.75`. -/
theorem ev_percent_formula_and_scenarios :
    (∀ p o : ℚ, ev_percent p o = (p * (o - 1) - (1 - p)) * 100) ∧
    ev_percent (65 / 100) (185 / 100) = 2025 / 100 ∧
    ev_percent (425 / 1000) (21 / 10) = -(1075 / 100) := by
  refine ⟨fun p o => rfl, ?_, ?_⟩ <;> norm_num [ev_percent, calculate_ev]

/-- C7: for every EV and confidence input, including extreme or negative
values, `calculate_stake` returns a value inside the configured
`[min_stake, max_stake] = [0.5, 10]` bounds. -/
theorem calculate_stake_within_bounds :
    ∀ ev confidence : ℚ,
      1 / 2 ≤ calculate_stake ev confidence ∧ calculate_stake ev confidence ≤ 10 := by
  intro ev confidence
  refine ⟨le_max_left _ _, max_le (by norm_num) (min_le_right _ _)⟩

/-- C6: a candidate is approved iff its EV% is at least 5.0, its
confidence at least 0.70, and its odds lie in `[1.3, 5.0]` inclusive;
failing any one condition means not approved. -/
theorem approve_pick_iff_all_criteria :
    ∀ ev confidence odds : ℚ,
      approve_pick ev confidence odds = true ↔
        (5 ≤ ev ∧ 7 / 10 ≤ confidence ∧ (13 / 10 ≤ odds ∧ odds ≤ 5)) := by
  intro ev confidence odds
  simp [approve_pick, criteria_min_ev, criteria_min_confidence,
    criteria_min_odds, criteria_max_odds, and_assoc]

/-! ## Feature Builder (README_COMPLETO.md, ETAPA 2) -/

/-- Relative offensive strength: `gols ÷ max(média_sofrida_oponentes, 0.1)`. -/
def home_offensive_strength (goals_avg opp_conceded_avg : ℚ) : ℚ :=
  goals_avg / max opp_conceded_avg (1 / 10)

/-- Same formula for the away side. -/
def away_offensive_strength (goals_avg opp_conceded_avg : ℚ) : ℚ :=
  goals_avg / max opp_conceded_avg (1 / 10)

/-- Relative defensive strength: `1 ÷ max(gols_sofridos, 0.1)`. -/
def home_defensive_strength (conceded_avg : ℚ) : ℚ :=
  1 / max conceded_avg (1 / 10)

/-- Same formula for the away side. -/
def away_defensive_strength (conceded_avg : ℚ) : ℚ :=
  1 / max conceded_avg (1 / 10)

/-- `home_advantage_multiplier = 1.15` — +15% para time da casa. -/
def home_advantage_multiplier : ℚ := 23 / 20

/-- Raw per-match statistics consumed by the Feature Builder
(the MatchContext fields used in ETAPA 2's worked example). -/
structure RawStats where
  home_goals_avg : ℚ
  home_conceded_avg : ℚ
  away_goals_avg : ℚ
  away_conceded_avg : ℚ
  forma_home : ℚ
  forma_away : ℚ
  h2h_adv_home : ℚ
  importance : ℚ

/-- The eight-entry feature vector of ETAPA 2.4. -/
structure Features where
  off_home : ℚ
  off_away : ℚ
  def_home : ℚ
  def_away : ℚ
  forma_home : ℚ
  forma_away : ℚ
  h2h_adv_home : ℚ
  importance : ℚ

/-- ETAPA 2.1–2.2: the strength features before the home-advantage step. -/
def baseFeatures (s : RawStats) : Features where
  off_home := home_offensive_strength s.home_goals_avg s.away_conceded_avg
  off_away := away_offensive_strength s.away_goals_avg s.home_conceded_avg
  def_home := home_defensive_strength s.home_conceded_avg
  def_away := away_defensive_strength s.away_conceded_avg
  forma_home := s.forma_home
  forma_away := s.forma_away
  h2h_adv_home := s.h2h_adv_home
  importance := s.importance

/-- ETAPA 2.3: `home_offensive_strength *= home_advantage_multiplier`. -/
def applyHomeAdvantage (f : Features) : Features :=
  { f with off_home := f.off_home * home_advantage_multiplier }

/-- The full feature-building step (ETAPA 2.1–2.3). -/
def featureVector (s : RawStats) : Features :=
  applyHomeAdvantage (baseFeatures s)

/-! ## Ensemble confidence (README_COMPLETO.md, ETAPA 4.2) -/

/-- Population variance, as `np.var` computes it. -/
def npVar (l : List ℚ) : ℚ :=
  ((l.map (fun x => (x - l.sum / l.length) ^ 2)).sum) / l.length

/-- `avg_variance`: mean of the three per-outcome cross-model variances. -/
def avg_variance (homes draws aways : List ℚ) : ℚ :=
  (npVar homes + npVar draws + npVar aways) / 3

/-- `confidence_score = 1 - (avg_variance * 1000)`. -/
def confidence_score (v : ℚ) : ℚ :=
  1 - v * 1000

/-! ## Claim theorems: stake formula (C3) -/

/-- C3 counterexample: at `p = 0.51`, `o = 2` (so EV% = 2) and
confidence `0.5`, the kelly fraction the code computes differs from the
spec's `clamp(p - (1-p)/(o-1), 0, max_bankroll_fraction) * kelly_multiplier`:
the code yields `0.005`, the claimed formula `0.01`. -/
theorem kelly_fraction_formula_counterexample :
    ev_percent (51 / 100) 2 = 2 ∧
    kelly_fraction_of 2 (1 / 2) = 5 / 1000 ∧
    kelly_fraction_spec (51 / 100) 2 = 10 / 1000 ∧
    kelly_fraction_of 2 (1 / 2) ≠ kelly_fraction_spec (51 / 100) 2 := by
  refine ⟨?_, ?_, ?_, ?_⟩ <;>
    norm_num [ev_percent, calculate_ev, kelly_fraction_of, kelly_fraction_spec,
      max_bankroll_pct]

/-- C3 amended: the stake is computed from the code's kelly fraction
`min((EV%/100)·confidence, max_bankroll_pct/100) · 0.5` — a function of
EV% and confidence, not of `(p, o)` through the spec's clamp formula —
mapped into `[0.5, 10]` as `max(0.5, min(kelly·50, 10))`; under the
default 2% bankroll cap this stake is identically `0.5`. -/
theorem calculate_stake_from_code_kelly :
    ∀ ev confidence : ℚ,
      calculate_stake ev confidence =
        max (1 / 2) (min (kelly_fraction_of ev confidence * 50) 10) ∧
      calculate_stake ev confidence = 1 / 2 := by
  intro ev confidence
  refine ⟨rfl, ?_⟩
  have hk : kelly_fraction_of ev confidence * 50 ≤ 1 / 2 := by
    have h1 : min ((ev / 100) * confidence) (max_bankroll_pct / 100) ≤
        max_bankroll_pct / 100 :=
      min_le_right _ _
    unfold kelly_fraction_of
    unfold max_bankroll_pct at h1 ⊢
    nlinarith
  have hmin : min (kelly_fraction_of ev confidence * 50) 10 ≤ 1 / 2 :=
    le_trans (min_le_left _ _) hk
  exact max_eq_left hmin

/-! ## Claim theorems: confidence score (C4) -/

/-- C4 counterexample: for the valid model estimates
`(0.1, 0.45, 0.45)`, `(0.5, 0.25, 0.25)`, `(0.9, 0.05, 0.05)` (each
distribution sums to 1), the confidence score is negative, so it does
not always lie in `[0, 1]`. -/
theorem confidence_score_escapes_unit_interval :
    (1 / 10 + 45 / 100 + 45 / 100 : ℚ) = 1 ∧
    (5 / 10 + 25 / 100 + 25 / 100 : ℚ) = 1 ∧
    (9 / 10 + 5 / 100 + 5 / 100 : ℚ) = 1 ∧
    confidence_score
      (avg_variance [1 / 10, 5 / 10, 9 / 10]
        [45 / 100, 25 / 100, 5 / 100] [45 / 100, 25 / 100, 5 / 100]) < 0 := by
  refine ⟨by norm_num, by norm_num, by norm_num, ?_⟩
  norm_num [confidence_score, avg_variance, npVar]

/-- C4 amended: `confidence_score = 1 - 1000·avg_variance` is monotone
non-increasing in the cross-model variance and at most 1 for
nonnegative variance, but it is linear, not saturating: it lies in
`[0, 1]` exactly when the variance is at most `1/1000`, and becomes
negative for larger variance. -/
theorem confidence_score_monotone_linear :
    ∀ v₁ v₂ : ℚ,
      (v₁ ≤ v₂ → confidence_score v₂ ≤ confidence_score v₁) ∧
      (0 ≤ v₁ → confidence_score v₁ ≤ 1) ∧
      (0 ≤ confidence_score v₁ ↔ v₁ ≤ 1 / 1000) := by
  intro v₁ v₂
  refine ⟨fun h => ?_, fun h => ?_, ?_⟩
  · unfold confidence_score; linarith
  · unfold confidence_score; linarith
  · unfold confidence_score
    constructor <;> intro h <;> linarith

/-- Witness for `confidence_score_monotone_linear` at `v₁ = 1/2000`,
`v₂ = 1/1000`. -/
theorem confidence_score_monotone_linear_witness :
    confidence_score (1 / 1000) ≤ confidence_score (1 / 2000) ∧
    confidence_score (1 / 2000) ≤ 1 := by
  exact ⟨(confidence_score_monotone_linear (1 / 2000) (1 / 1000)).1 (by norm_num),
    (confidence_score_monotone_linear (1 / 2000) (1 / 1000)).2.1 (by norm_num)⟩

/-! ## Claim theorems: invalid odds rejection (C8) -/

/-- C8: every quote with decimal odds `o ≤ 1` is rejected with
`InvalidOddsError` and no assessment value is produced. -/
theorem invalid_odds_rejected :
    ∀ p o : ℚ, o ≤ 1 →
      calculate_ev_checked p o = Except.error CalcError.invalidOdds := by
  intro p o h
  simp [calculate_ev_checked, h]

/-- Witness for `invalid_odds_rejected`: odds `1.0` is rejected. -/
theorem invalid_odds_rejected_witness :
    calculate_ev_checked (65 / 100) 1 = Except.error CalcError.invalidOdds :=
  invalid_odds_rejected (65 / 100) 1 (by norm_num)

/-! ## Claim theorems: home-advantage frame (C9) -/

/-- C9 counterexample: with the source's own match statistics
(home scores 2.1 / concedes 0.8, away scores 1.9 / concedes 0.9), the
home defensive strength feature stays at its unmultiplied value `1.25`;
it does not equal the multiplied value `1.25 × 1.15`, so the multiplier
is not applied to the home defensive strength. -/
theorem home_defense_not_multiplied :
    (featureVector ⟨21 / 10, 8 / 10, 19 / 10, 9 / 10, 8 / 10, 6 / 10, 4 / 10, 12 / 10⟩).def_home
        = 5 / 4 ∧
    (featureVector ⟨21 / 10, 8 / 10, 19 / 10, 9 / 10, 8 / 10, 6 / 10, 4 / 10, 12 / 10⟩).def_home
        ≠ home_defensive_strength (8 / 10) * home_advantage_multiplier := by
  constructor <;>
    norm_num [featureVector, applyHomeAdvantage, baseFeatures,
      home_defensive_strength, home_advantage_multiplier]

/-- C9 amended: the home-advantage multiplier (1.15) is applied to the
home offensive strength feature only; the home defensive strength, both
away-side features and all remaining entries of the feature vector are
unchanged by it. -/
theorem home_advantage_touches_only_home_offense :
    ∀ f : Features,
      (applyHomeAdvantage f).off_home = f.off_home * home_advantage_multiplier ∧
      (applyHomeAdvantage f).def_home = f.def_home ∧
      (applyHomeAdvantage f).off_away = f.off_away ∧
      (applyHomeAdvantage f).def_away = f.def_away ∧
      (applyHomeAdvantage f).forma_home = f.forma_home ∧
      (applyHomeAdvantage f).forma_away = f.forma_away ∧
      (applyHomeAdvantage f).h2h_adv_home = f.h2h_adv_home ∧
      (applyHomeAdvantage f).importance = f.importance := by
  intro f
  exact ⟨rfl, rfl, rfl, rfl, rfl, rfl, rfl, rfl⟩

/-! ## Claim theorems: floored denominators (C10) -/

/-- C10: every relative-strength division floors its denominator at
`0.1`, so the denominator is never zero, the divisions genuinely invert
(multiplying back by the denominator recovers the numerator), and a
team with zero average conceded goals still yields a finite value. -/
theorem strength_divisions_total :
    ∀ g c : ℚ,
      (1 / 10 ≤ max c (1 / 10) ∧ max c (1 / 10) ≠ 0) ∧
      home_offensive_strength g c * max c (1 / 10) = g ∧
      away_offensive_strength g c * max c (1 / 10) = g ∧
      home_defensive_strength c * max c (1 / 10) = 1 ∧
      away_defensive_strength c * max c (1 / 10) = 1 ∧
      home_offensive_strength g 0 = 10 * g ∧
      home_defensive_strength 0 = 10 := by
  intro g c
  have hle : (1 / 10 : ℚ) ≤ max c (1 / 10) := le_max_right _ _
  have hne : max c (1 / 10) ≠ 0 := by positivity
  refine ⟨⟨hle, hne⟩, ?_, ?_, ?_, ?_, ?_, ?_⟩
  · exact div_mul_cancel₀ g hne
  · exact div_mul_cancel₀ g hne
  · exact one_div_mul_cancel hne
  · exact one_div_mul_cancel hne
  · show g / max (0 : ℚ) (1 / 10) = 10 * g
    rw [show max (0 : ℚ) (1 / 10) = 1 / 10 from by norm_num]
    ring
  · norm_num [home_defensive_strength]

/-! ## Market Comparator (spec §4.3) -/

/-- Naive implied probabilities: `1/odds` per selection
(README_COMPLETO.md ETAPA 5.1 comments). -/
def impliedProbs (odds : List ℚ) : List ℚ :=
  odds.map (fun o => 1 / o)

/-- Modelled from the spec: the repository documents but does not ship
the de-vig step ("de-vigs by dividing by the sum of all selections'
implied probabilities in that market so they total exactly 1"). -/
def devig (odds : List ℚ) : List ℚ :=
  (impliedProbs odds).map (fun q => q / (impliedProbs odds).sum)

/-- Dividing every element of a list by a constant divides the sum. -/
theorem sum_map_div (l : List ℚ) (S : ℚ) :
    (l.map (fun q => q / S)).sum = l.sum / S := by
  induction l with
  | nil => simp
  | cons a t ih => simp [ih, add_div]

/-- `getD` commutes with `map` at in-range indices. -/
theorem getD_map (f : ℚ → ℚ) (l : List ℚ) (d d' : ℚ) :
    ∀ i : Nat, i < l.length → (l.map f).getD i d = f (l.getD i d') := by
  induction l with
  | nil => intro i hi; cases hi
  | cons a t ih =>
    intro i hi
    cases i with
    | zero => rfl
    | succ j => exact ih j (Nat.lt_of_succ_lt_succ hi)

/-! ## Multi-Market Pick Selector (spec §4.5) -/

/-- One evaluated (market, selection) candidate for a match. -/
structure ValueAssessment where
  market : String
  selection : String
  odds : ℚ
  ev : ℚ
  confidence : ℚ

/-- Approval status carried by an emitted Pick. -/
inductive PickStatus
  | approved
  | informational
  deriving DecidableEq

/-- Final emitted recommendation. -/
structure Pick where
  market : String
  selection : String
  odds : ℚ
  ev : ℚ
  confidence : ℚ
  status : PickStatus

/-- Builds a Pick from a candidate with the given approval status. -/
def mkPick (st : PickStatus) (v : ValueAssessment) : Pick where
  market := v.market
  selection := v.selection
  odds := v.odds
  ev := v.ev
  confidence := v.confidence
  status := st

/-- Ranking order of spec §4.5: EV% descending, ties by higher
confidence, then by lower odds. -/
def rankBefore (a b : ValueAssessment) : Bool :=
  decide (b.ev < a.ev) ||
  (decide (a.ev = b.ev) &&
    (decide (b.confidence < a.confidence) ||
      (decide (a.confidence = b.confidence) && decide (a.odds ≤ b.odds))))

/-- Insertion step of the ranking sort. -/
def insertRanked (x : ValueAssessment) : List ValueAssessment → List ValueAssessment
  | [] => [x]
  | y :: ys => if rankBefore x y then x :: y :: ys else y :: insertRanked x ys

/-- Ranks all candidates of a match (insertion sort by `rankBefore`). -/
def rankCandidates : List ValueAssessment → List ValueAssessment
  | [] => []
  | x :: xs => insertRanked x (rankCandidates xs)

/-- Modelled from the spec: the repository documents but does not ship
the selector ("fill with approved candidates first; if fewer than K are
approved, fill remaining slots with the next-highest-EV candidates
regardless of approval status, marked informational" — SEMPRE 5 PICKS
POR PARTIDA). -/
def selectPicks (K : Nat) (cands : List ValueAssessment) : List Pick :=
  let ranked := rankCandidates cands
  let app := ranked.filter fun v => approve_pick v.ev v.confidence v.odds
  let rest := ranked.filter fun v => !approve_pick v.ev v.confidence v.odds
  (app.map (mkPick .approved) ++ rest.map (mkPick .informational)).take K

/-- Upstream failures that abort one match's pipeline (spec §7). -/
inductive PipelineError
  | missingData
  | insufficientModels
  deriving DecidableEq

/-- The selector stage on the pipeline result: on upstream error it
surfaces the error and emits no Picks. -/
def runSelector (K : Nat) :
    Except PipelineError (List ValueAssessment) → Except PipelineError (List Pick)
  | .ok cands => .ok (selectPicks K cands)
  | .error e => .error e

/-- Inserting into the ranked list adds exactly one element. -/
theorem length_insertRanked (x : ValueAssessment) (l : List ValueAssessment) :
    (insertRanked x l).length = l.length + 1 := by
  induction l with
  | nil => rfl
  | cons y ys ih =>
    unfold insertRanked
    split
    · simp
    · simp [ih]

/-- Ranking preserves the number of candidates. -/
theorem length_rankCandidates (l : List ValueAssessment) :
    (rankCandidates l).length = l.length := by
  induction l with
  | nil => rfl
  | cons x xs ih => simp [rankCandidates, length_insertRanked, ih]

/-- A filter and its complement partition the list's length. -/
theorem filter_partition_length {α : Type} (p : α → Bool) (l : List α) :
    (l.filter p).length + (l.filter fun x => !p x).length = l.length := by
  induction l with
  | nil => rfl
  | cons a t ih => by_cases h : p a <;> simp [List.filter_cons, h, ih] <;> omega

/-! ## Claim theorems: selector cardinality (C1) -/

/-- C1: whenever the upstream stages succeed (and supply at least K
candidates), the Pick Selector emits exactly K Picks, marking the
below-threshold fillers "informational" instead of shrinking the
output; it emits zero Picks exactly when an upstream error occurred, in
which case the error is surfaced. -/
theorem selector_emits_exactly_K :
    ∀ (K : Nat) (cands : List ValueAssessment) (e : PipelineError),
      (K ≤ cands.length →
        runSelector K (Except.ok cands) = Except.ok (selectPicks K cands) ∧
        (selectPicks K cands).length = K ∧
        ∀ pk ∈ selectPicks K cands,
          (pk.status = PickStatus.approved ↔
            approve_pick pk.ev pk.confidence pk.odds = true)) ∧
      runSelector K (Except.error e) = Except.error e := by
  intro K cands e
  refine ⟨fun hK => ⟨rfl, ?_, ?_⟩, rfl⟩
  · simp only [selectPicks, List.length_take, List.length_append, List.length_map,
      filter_partition_length, length_rankCandidates]
    exact Nat.min_eq_left hK
  · intro pk hpk
    have hpk' := List.take_subset K _ hpk
    rcases List.mem_append.mp hpk' with h | h
    · obtain ⟨v, hv, rfl⟩ := List.mem_map.mp h
      have happ := (List.mem_filter.mp hv).2
      exact ⟨fun _ => happ, fun _ => rfl⟩
    · obtain ⟨v, hv, rfl⟩ := List.mem_map.mp h
      have hnapp := (List.mem_filter.mp hv).2
      rw [Bool.not_eq_true'] at hnapp
      constructor
      · intro hst
        simp [mkPick] at hst
      · intro happ
        have h' : approve_pick v.ev v.confidence v.odds = true := happ
        rw [h'] at hnapp
        cases hnapp

/-- Witness for `selector_emits_exactly_K`: three candidates, K = 2. -/
theorem selector_emits_exactly_K_witness :
    (selectPicks 2
      [⟨"1x2", "home", 2, 10, 8 / 10⟩, ⟨"1x2", "draw", 3, 1, 1 / 2⟩,
        ⟨"over_2_5", "over", 7 / 4, 137 / 10, 85 / 100⟩]).length = 2 :=
  ((selector_emits_exactly_K 2
    [⟨"1x2", "home", 2, 10, 8 / 10⟩, ⟨"1x2", "draw", 3, 1, 1 / 2⟩,
      ⟨"over_2_5", "over", 7 / 4, 137 / 10, 85 / 100⟩]
    PipelineError.missingData).1 (by decide)).2.1

/-! ## Claim theorems: de-vig (C5) -/

/-- C5: for every market with at least two positive-odds quotes, each
selection's de-vigged implied probability is `(1/odds)` divided by the
sum of `(1/odds)` over the market's selections, and the de-vigged
probabilities sum to exactly 1 (hence to 1 within 1e-6). -/
theorem devig_probabilities :
    ∀ odds : List ℚ, 2 ≤ odds.length → (∀ o ∈ odds, 0 < o) →
      (devig odds).length = odds.length ∧
      (∀ i : Nat, i < odds.length →
        (devig odds).getD i 0 = (1 / odds.getD i 0) / (impliedProbs odds).sum) ∧
      (devig odds).sum = 1 ∧
      |(devig odds).sum - 1| ≤ 1 / 1000000 := by
  intro odds hlen hpos
  have hne : odds ≠ [] := by
    intro h
    rw [h] at hlen
    cases hlen
  have hmem : ∀ q ∈ impliedProbs odds, 0 < q := by
    intro q hq
    obtain ⟨o, ho, rfl⟩ := List.mem_map.mp hq
    exact div_pos one_pos (hpos o ho)
  have hne' : impliedProbs odds ≠ [] := by
    intro h
    exact hne (List.map_eq_nil_iff.mp h)
  have hS : 0 < (impliedProbs odds).sum := List.sum_pos _ hmem hne'
  have hsum : (devig odds).sum = 1 := by
    rw [devig, sum_map_div, div_self (ne_of_gt hS)]
  refine ⟨by simp [devig, impliedProbs], ?_, hsum, ?_⟩
  · intro i hi
    have hi' : i < (impliedProbs odds).length := by
      simpa [impliedProbs] using hi
    rw [devig, getD_map _ _ _ 0 i hi', impliedProbs, getD_map _ _ _ 0 i hi]
  · rw [hsum]
    norm_num

/-- Witness for `devig_probabilities`: the market `[2, 4, 4]`. -/
theorem devig_probabilities_witness :
    (devig [2, 4, 4]).sum = 1 :=
  (devig_probabilities [2, 4, 4] (by decide)
    (by intro o ho
        simp only [List.mem_cons, List.not_mem_nil, or_false] at ho
        rcases ho with rfl | rfl | rfl <;> norm_num)).2.2.1

end QuantumBet
